import Mathlib

/-!
Verification of `scripts/export-events.mjs` (Bristol improv calendar export).

The script is a linear pipeline: read two environment values, fetch the
"Approved" records from a paginated HTTP endpoint, transform each record into
an output event, filter the events by a date threshold, and write an envelope
object to `events.json`.

The embedding below models:
* JS `Date` instants as `Nat` minutes since the Unix epoch (all instants the
  script handles are after 1970, and every observable output of the script has
  minute granularity);
* the proleptic Gregorian calendar with the standard civil-from-days /
  days-from-civil algorithms;
* the `Europe/London` timezone as GMT (+0) outside British Summer Time and
  BST (+60 minutes) between 01:00 UTC on the last Sunday of March and
  01:00 UTC on the last Sunday of October;
* the process-local timezone of the runner as UTC: the script's header says it
  runs in GitHub Actions, whose runners use UTC.  `new Date(y, m, d)` and
  `Date.prototype.getFullYear/getMonth` therefore work in UTC civil time;
* optional JS string values (`undefined` vs a string) as `Option String`,
  with JS truthiness `jsTruthy` (a string is falsy exactly when it is empty);
* `fetch` responses as an abstract server function `Option String → Except Nat Page`
  (`Except.error s` models a non-2xx response with HTTP status `s`);
* the `do … while` pagination loop with explicit fuel (`none` = the loop did
  not finish within the fuel, i.e. the run does not terminate);
* `process.exit`, `console.error` and the file write as fields of an explicit
  `ScriptResult` record.
-/

/-- Two-digit zero padding, as produced by the `2-digit` option of
`toLocaleTimeString` and by the month/day components of the `en-CA`
`toLocaleDateString` format. -/
def pad2 (n : Nat) : String :=
  if n < 10 then "0" ++ toString n else toString n

/-- Four-digit zero padding for the year component of the `en-CA` date format. -/
def pad4 (n : Nat) : String :=
  if n < 10 then "000" ++ toString n
  else if n < 100 then "00" ++ toString n
  else if n < 1000 then "0" ++ toString n
  else toString n

/-- Days since 1970-01-01 of the civil date `y-m-d` (proleptic Gregorian,
`1 ≤ m ≤ 12`).  Standard days-from-civil algorithm; valid for `y ≥ 1970`,
which covers every instant the script manipulates. -/
def daysFromCivil (y m d : Nat) : Nat :=
  let y' := if m ≤ 2 then y - 1 else y
  let era := y' / 400
  let yoe := y' % 400
  let mp := if 2 < m then m - 3 else m + 9
  let doy := (153 * mp + 2) / 5 + (d - 1)
  let doe := yoe * 365 + yoe / 4 - yoe / 100 + doy
  era * 146097 + doe - 719468

/-- Civil date `(y, m, d)` of a day count since 1970-01-01 (inverse of
`daysFromCivil` on its valid range).  Standard civil-from-days algorithm. -/
def civilFromDays (z : Nat) : Nat × Nat × Nat :=
  let z' := z + 719468
  let era := z' / 146097
  let doe := z' % 146097
  let yoe := (doe - doe / 1460 + doe / 36524 - doe / 146097) / 365
  let y := yoe + era * 400
  let doy := doe - (365 * yoe + yoe / 4 - yoe / 100)
  let mp := (5 * doy + 2) / 153
  let d := doy - (153 * mp + 2) / 5 + 1
  let m := if mp < 10 then mp + 3 else mp - 9
  (if m ≤ 2 then y + 1 else y, m, d)

/-- Day (since the epoch) of the last Sunday of month `m` (March or October,
both 31-day months) of year `y`.  Day 0 (1970-01-01) was a Thursday, so
`(z + 4) % 7 = 0` exactly on Sundays. -/
def lastSundayOfMonth (y m : Nat) : Nat :=
  let z := daysFromCivil y m 31
  z - (z + 4) % 7

/-- Offset (in minutes) of `Europe/London` ahead of UTC at the instant `t`
(minutes since the epoch): +60 during British Summer Time, which runs from
01:00 UTC on the last Sunday of March to 01:00 UTC on the last Sunday of
October, else 0. -/
def londonOffsetMin (t : Nat) : Nat :=
  let y := (civilFromDays (t / 1440)).1
  let bstStart := lastSundayOfMonth y 3 * 1440 + 60
  let bstEnd := lastSundayOfMonth y 10 * 1440 + 60
  if bstStart ≤ t ∧ t < bstEnd then 60 else 0

/-- Rendering `YYYY-MM-DD` of a civil triple (the `en-CA` locale's date
format, zero-padded). -/
def formatCivil : Nat × Nat × Nat → String
  | (y, m, d) => pad4 y ++ "-" ++ pad2 m ++ "-" ++ pad2 d

/-- Model of `date.toLocaleDateString('en-CA', { timeZone: 'Europe/London' })` applied
to the instant `t` (minutes since the epoch): the London civil date of `t`,
formatted `YYYY-MM-DD`. -/
def londonDateStr (t : Nat) : String :=
  formatCivil (civilFromDays ((t + londonOffsetMin t) / 1440))

/-- Model of `date.toLocaleTimeString('en-GB', { hour: '2-digit', minute: '2-digit',
hour12: false, timeZone: 'Europe/London' })` applied to the instant `t`:
the London wall-clock time of `t` as 24-hour `HH:MM`. -/
def londonTimeStr (t : Nat) : String :=
  let tl := t + londonOffsetMin t
  pad2 (tl / 60 % 24) ++ ":" ++ pad2 (tl % 60)

/-- Decimal digit value of a character, if it is one. -/
def digit? (c : Char) : Option Nat :=
  if 48 ≤ c.toNat ∧ c.toNat ≤ 57 then some (c.toNat - 48) else none

/-- Parse of a datetime string by the JS `Date` constructor, restricted to the
ISO-8601 shapes the Airtable API emits (`YYYY-MM-DDTHH:MM:SS.mmmZ`,
`YYYY-MM-DDTHH:MMZ` and the date-only `YYYY-MM-DD`, all read as UTC).
Returns the instant in minutes since the epoch (seconds and milliseconds are
below the granularity of every output of the script), or `none` when the
string does not parse (an invalid `Date`). -/
def parseISO (s : String) : Option Nat := do
  let ymd : Char → Char → Char → Char → Char → Char → Char → Char → Option Nat :=
    fun y1 y2 y3 y4 m1 m2 d1 d2 => do
      let y := 1000 * (← digit? y1) + 100 * (← digit? y2) + 10 * (← digit? y3) + (← digit? y4)
      let m := 10 * (← digit? m1) + (← digit? m2)
      let d := 10 * (← digit? d1) + (← digit? d2)
      if 1 ≤ m ∧ m ≤ 12 ∧ 1 ≤ d ∧ d ≤ 31 then some (daysFromCivil y m d) else none
  let hm : Char → Char → Char → Char → Option Nat := fun h1 h2 n1 n2 => do
    let h := 10 * (← digit? h1) + (← digit? h2)
    let n := 10 * (← digit? n1) + (← digit? n2)
    if h ≤ 23 ∧ n ≤ 59 then some (h * 60 + n) else none
  match s.data with
  | [y1, y2, y3, y4, '-', m1, m2, '-', d1, d2] =>
      do return (← ymd y1 y2 y3 y4 m1 m2 d1 d2) * 1440
  | [y1, y2, y3, y4, '-', m1, m2, '-', d1, d2, 'T', h1, h2, ':', n1, n2, 'Z'] =>
      do return (← ymd y1 y2 y3 y4 m1 m2 d1 d2) * 1440 + (← hm h1 h2 n1 n2)
  | [y1, y2, y3, y4, '-', m1, m2, '-', d1, d2, 'T', h1, h2, ':', n1, n2, ':',
     s1, s2, '.', t1, t2, t3, 'Z'] => do
      let _ ← digit? s1; let _ ← digit? s2
      let _ ← digit? t1; let _ ← digit? t2; let _ ← digit? t3
      return (← ymd y1 y2 y3 y4 m1 m2 d1 d2) * 1440 + (← hm h1 h2 n1 n2)
  | _ => none

/-- JS truthiness of an optional string value: `undefined` and `''` are falsy,
every non-empty string is truthy. -/
def jsTruthy : Option String → Bool
  | none => false
  | some s => s ≠ ""

/-- The JS idiom `v || dflt` on an optional string value: the value when
truthy, otherwise the default. -/
def jsOr (v : Option String) (dflt : String) : String :=
  match v with
  | none => dflt
  | some s => if s = "" then dflt else s

/-- The separator the template literal on line 57 of the script places betweeen
the start and the end time.  The source file's bytes there are
`C3 A2 E2 82 AC E2 80 9C`, i.e. the three characters U+00E2, U+20AC, U+201C —
the UTF-8 bytes of the en dash U+2013 re-encoded through a Windows-1252
round-trip (mojibake) — not a single en dash. -/
def timeSeparator : String :=
  String.mk [Char.ofNat 0xE2, Char.ofNat 0x20AC, Char.ofNat 0x201C]

/-- A single en dash U+2013, the separator the spec documents. -/
def enDash : String := String.mk [Char.ofNat 0x2013]

/-- Model of `String.prototype.toLowerCase()` — character-wise lowercasing.  Lean's
`Char.toLower` lowercases exactly the basic latin letters, which coincides
with the JS behaviour on the ASCII field values the script handles. -/
def jsToLower (s : String) : String :=
  String.mk (s.data.map Char.toLower)

/-- The named fields of an Airtable record that the script reads.  `none`
models an absent field (`undefined` in JS).  `TypeField`, `TicketsURL` and
`EventURL` stand for the source field names `Type`, `Tickets URL` and
`Event URL` (not representable verbatim as Lean identifiers). -/
structure Fields where
  Start : Option String
  End : Option String
  Title : Option String
  Venue : Option String
  TypeField : Option String
  TicketsURL : Option String
  EventURL : Option String
deriving Repr, DecidableEq

/-- One record returned by the Airtable list endpoint. -/
structure AirtableRecord where
  id : String
  fields : Fields
deriving Repr, DecidableEq

/-- The output event shape produced by `transformEvent`. -/
structure OutputEvent where
  date : String
  title : String
  venue : String
  time : String
  type : String
  url : String
  description : String
deriving Repr, DecidableEq

/-- Embedding of `formatTime(startISO, endISO)` (script lines 44–58): London wall-clock
start time as 24-hour `HH:MM`; if `endISO` is truthy, the end time is computed
identically and appended after `timeSeparator`.  `new Date` of `undefined` or
of a non-parsing string is an invalid `Date`, whose `toLocaleTimeString`
returns the string `"Invalid Date"`. -/
def formatTime (startISO endISO : Option String) : String :=
  let startTime :=
    match startISO >>= parseISO with
    | none => "Invalid Date"
    | some t => londonTimeStr t
  if jsTruthy endISO then
    let endTime :=
      match endISO >>= parseISO with
      | none => "Invalid Date"
      | some t => londonTimeStr t
    startTime ++ timeSeparator ++ endTime
  else startTime

/-- Embedding of `formatDate(isoString)` (script lines 60–63): London civil date of the
instant, `YYYY-MM-DD`; `"Invalid Date"` when the argument is absent or does
not parse. -/
def formatDate (isoString : Option String) : String :=
  match isoString >>= parseISO with
  | none => "Invalid Date"
  | some t => londonDateStr t

/-- Embedding of `transformEvent(record)` (script lines 65–76). -/
def transformEvent (record : AirtableRecord) : OutputEvent :=
  let fields := record.fields
  { date := formatDate fields.Start
    title := jsOr fields.Title ""
    venue := jsOr fields.Venue ""
    time := formatTime fields.Start fields.End
    type := jsToLower (jsOr fields.TypeField "show")
    url := jsOr fields.TicketsURL (jsOr fields.EventURL "")
    description := "" }

/-- One parsed JSON response body of the list endpoint: a `records` list and
an optional `offset` continuation token. -/
structure Page where
  records : List AirtableRecord
  offset : Option String
deriving Repr, DecidableEq

/-- An abstract Airtable server: the response to a request carrying the given
`offset` query parameter (`none` = no `offset` parameter).  `Except.error s`
models a response with non-2xx HTTP status `s` (`!response.ok`). -/
def Server : Type := Option String → Except Nat Page

/-- The `do … while (offset)` loop of `fetchApprovedEvents` (script lines
15–42), with explicit fuel: `none` means the loop did not finish within `fuel`
iterations (the script would still be running), `some (Except.error s)` means
an iteration threw `Airtable API error: s`, and `some (Except.ok rs)` means
the loop finished with accumulated records `rs`.  Each iteration sends the
offset echoed from the previous response (`off`), appends the response's
records, and loops exactly when the response carries an offset. -/
def fetchFrom (srv : Server) : Nat → Option String → Option (Except Nat (List AirtableRecord))
  | 0, _ => none
  | fuel + 1, off =>
    match srv off with
    | Except.error s => some (Except.error s)
    | Except.ok p =>
      match p.offset with
      | none => some (Except.ok p.records)
      | some t => (fetchFrom srv fuel (some t)).map (Except.map (p.records ++ ·))

/-- Embedding of `fetchApprovedEvents()`: run the pagination loop starting from no offset
(the first request carries no `offset` parameter). -/
def fetchApprovedEvents (srv : Server) (fuel : Nat) : Option (Except Nat (List AirtableRecord)) :=
  fetchFrom srv fuel none

/-- Relation `Serves srv off pages`: starting from request parameter `off`, the server
answers with exactly the successive pages `pages`, each non-final page
carrying the continuation token under which the next page is served, and the
final page carrying none. -/
inductive Serves (srv : Server) : Option String → List Page → Prop
  | last {off p} : srv off = Except.ok p → p.offset = none → Serves srv off [p]
  | step {off p t ps} : srv off = Except.ok p → p.offset = some t →
      Serves srv (some t) ps → Serves srv off (p :: ps)

/-- Relation `ServesErr srv off s n`: starting from request parameter `off`,
the server answers with successful pages, each carrying the continuation
token under which the next page is served, until the `n`-th request is
answered with a non-2xx HTTP status `s`. -/
inductive ServesErr (srv : Server) : Option String → Nat → Nat → Prop
  | here {off s} : srv off = Except.error s → ServesErr srv off s 1
  | step {off p t s n} : srv off = Except.ok p → p.offset = some t →
      ServesErr srv (some t) s n → ServesErr srv off s (n + 1)

/-- First day of the month preceding month `m` of year `y` (1-based months):
the month normalization `new Date(y, m0 - 1, 1)` performs when `m0 - 1`
underflows into the previous year. -/
def prevYM (y m : Nat) : Nat × Nat :=
  if m = 1 then (y - 1, 12) else (y, m - 1)

/-- The threshold computation of `main` (script lines 89–91): take the current
year and month from the runner's clock (UTC on a GitHub Actions runner), build
the local (UTC) midnight of the first day of the previous month, and render
that instant with `toLocaleDateString('en-CA', { timeZone: 'Europe/London' })`.
`now` is the current instant in minutes since the epoch. -/
def prevMonthStart (now : Nat) : String :=
  let c := civilFromDays (now / 1440)
  let p := prevYM c.1 c.2.1
  londonDateStr (daysFromCivil p.1 p.2 1 * 1440)

/-- Lexicographic `≤` on character lists, decided: `strLeGo xs ys = true`
exactly when `xs` is not lexicographically greater than `ys`. -/
def strLeGo : List Char → List Char → Bool
  | [], _ => true
  | _ :: _, [] => false
  | c :: cs, d :: ds => if c = d then strLeGo cs ds else decide (c < d)

/-- The JS comparison `a <= b` on strings: lexicographic code-unit
comparison.  Every string the script compares is ASCII, where JS's UTF-16
code-unit order, the Unicode codepoint order and `Char`'s order coincide. -/
def strLe (a b : String) : Bool :=
  strLeGo a.data b.data

/-- The filter of script line 92:
`events.filter((e) => e.date >= prevMonthStart)` — JS `>=` on strings is
lexicographic code-unit comparison. -/
def recentAndFutureEvents (threshold : String) (events : List OutputEvent) : List OutputEvent :=
  events.filter fun e => strLe threshold e.date

/-- The envelope written to `events.json` (script lines 95–98). -/
structure Output where
  lastUpdated : Nat
  events : List OutputEvent
deriving Repr, DecidableEq

/-- Observable outcome of one run of the script: the process exit code, the
content written to `events.json` (`none` = the file was not written, so any
prior content is untouched), whether any network request was issued, and the
lines printed to the error stream. -/
structure ScriptResult where
  exitCode : Nat
  written : Option Output
  networkCalled : Bool
  stderr : List String
deriving Repr, DecidableEq

/-- The whole script run: the module-level configuration check (lines 6–13),
then `main` (lines 78–103) under the top-level `.catch` handler (lines
105–108).  `apiKey`/`baseId` are the two environment values, `srv` the remote
endpoint, `now` the runner's clock in minutes since the epoch.  Returns `none`
when the pagination loop needs more than `fuel` iterations (the run never
finishes). -/
def runScript (apiKey baseId : Option String) (srv : Server) (fuel now : Nat) :
    Option ScriptResult :=
  if ¬ jsTruthy apiKey ∨ ¬ jsTruthy baseId then
    some { exitCode := 1, written := none, networkCalled := false,
           stderr := ["Missing AIRTABLE_API_KEY or AIRTABLE_BASE_ID"] }
  else
    match fetchApprovedEvents srv fuel with
    | none => none
    | some (Except.error s) =>
      some { exitCode := 1, written := none, networkCalled := true,
             stderr := ["Export failed: Airtable API error: " ++ toString s] }
    | some (Except.ok records) =>
      let events := records.map transformEvent
      let threshold := prevMonthStart now
      some { exitCode := 0
             written := some { lastUpdated := now,
                               events := recentAndFutureEvents threshold events }
             networkCalled := true
             stderr := [] }

/-- Modelled from the spec (amended reading): the first calendar day of the
month preceding the current month *of the runner's UTC clock*, formatted as
zero-padded `YYYY-MM-DD`.  This is the spec-side description the code's
`prevMonthStart` is compared against. -/
def specPrevMonthFirstUTC (now : Nat) : String :=
  let p := prevYM (civilFromDays (now / 1440)).1 (civilFromDays (now / 1440)).2.1
  pad4 p.1 ++ "-" ++ pad2 p.2 ++ "-01"

/-- Modelled from the spec's words: "the first calendar day of the month
preceding the current month, in the fixed timezone Europe/London, formatted
as zero-padded YYYY-MM-DD" — the current month here is the month of `now`
as observed in `Europe/London`. -/
def specPrevMonthFirstLondon (now : Nat) : String :=
  let c := civilFromDays ((now + londonOffsetMin now) / 1440)
  let p := prevYM c.1 c.2.1
  pad4 p.1 ++ "-" ++ pad2 p.2 ++ "-01"

/-- An output event that only carries a date (the filter looks at nothing
else). -/
def mkEvent (d : String) : OutputEvent :=
  { date := d, title := "", venue := "", time := "", type := "", url := "", description := "" }

/-- A record field bag with every field absent. -/
def emptyFields : Fields :=
  { Start := none, End := none, Title := none, Venue := none,
    TypeField := none, TicketsURL := none, EventURL := none }

/-- 2024-04-30T23:30Z in minutes since the epoch.  At this instant the London
civil date is already 2024-05-01 (BST, UTC+1), while the runner's UTC clock
still reads April. -/
def c1Now : Nat := daysFromCivil 2024 4 30 * 1440 + 1410

/-- 2024-03-10T12:00Z in minutes since the epoch (the spec's worked filter
example fixes `now` to 2024-03-10). -/
def c1ExampleNow : Nat := daysFromCivil 2024 3 10 * 1440 + 720

/-- The spec's round-trip example record: `Start = 2024-03-15T19:30:00.000Z`,
`End = 2024-03-15T21:00:00.000Z`. -/
def c2Record : AirtableRecord :=
  { id := "rec2",
    fields := { emptyFields with Start := some "2024-03-15T19:30:00.000Z",
                                 End := some "2024-03-15T21:00:00.000Z" } }

/-- A record whose `Type` field is present but empty. -/
def c6Record : AirtableRecord :=
  { id := "rec6", fields := { emptyFields with TypeField := some "" } }

/-- A record whose `Tickets URL` field is present but empty while `Event URL`
is a non-empty URL. -/
def c7Record : AirtableRecord :=
  { id := "rec7",
    fields := { emptyFields with TicketsURL := some "",
                                 EventURL := some "https://example.org/e" } }

/-- A record with no `Start` field (and nothing else either). -/
def c10Record : AirtableRecord := { id := "rec10", fields := emptyFields }

/-- Replace a present-but-empty string value by an absent one. -/
def blankToNone (v : Option String) : Option String :=
  if v = some "" then none else v

/-- Replace every present-but-empty field of a record by an absent field. -/
def normalizeBlank (r : AirtableRecord) : AirtableRecord :=
  { id := r.id,
    fields := { Start := blankToNone r.fields.Start
                End := blankToNone r.fields.End
                Title := blankToNone r.fields.Title
                Venue := blankToNone r.fields.Venue
                TypeField := blankToNone r.fields.TypeField
                TicketsURL := blankToNone r.fields.TicketsURL
                EventURL := blankToNone r.fields.EventURL } }

/-- Concrete record on page 1 of the two-page fake endpoint. -/
def recA : AirtableRecord :=
  { id := "recA", fields := { emptyFields with Start := some "2024-03-15T19:30:00.000Z" } }

/-- Second concrete record on page 1 of the two-page fake endpoint. -/
def recB : AirtableRecord :=
  { id := "recB", fields := { emptyFields with Start := some "2024-03-16T19:30:00.000Z" } }

/-- Concrete record on page 2 of the two-page fake endpoint. -/
def recC : AirtableRecord :=
  { id := "recC", fields := { emptyFields with Start := some "2024-03-17T20:00:00.000Z" } }

/-- A fake two-page endpoint: the first request (no `offset`) is answered with
`recA`, `recB` and continuation token `"page2"`; any request carrying an
offset is answered with `recC` and no token. -/
def twoPageSrv : Server := fun off =>
  match off with
  | none => Except.ok { records := [recA, recB], offset := some "page2" }
  | some _ => Except.ok { records := [recC], offset := none }

/-- The two pages `twoPageSrv` serves, in order. -/
def twoPages : List Page :=
  [{ records := [recA, recB], offset := some "page2" },
   { records := [recC], offset := none }]

/-! ## Helper lemmas -/

set_option maxRecDepth 4000 in
/-- On every first-of-month between 1970 and 2400, `civilFromDays` inverts
`daysFromCivil` (checked exhaustively). -/
theorem civilFromDays_daysFromCivil_first : ∀ k < 431, ∀ j < 12,
    civilFromDays (daysFromCivil (1970 + k) (1 + j) 1) = (1970 + k, 1 + j, 1) := by
  decide

/-- Ranged form of `civilFromDays_daysFromCivil_first`. -/
theorem civilFromDays_daysFromCivil_first' (y m : Nat)
    (hy : 1970 ≤ y) (hy' : y ≤ 2400) (hm : 1 ≤ m) (hm' : m ≤ 12) :
    civilFromDays (daysFromCivil y m 1) = (y, m, 1) := by
  have h := civilFromDays_daysFromCivil_first (y - 1970) (by omega) (m - 1) (by omega)
  rw [show 1970 + (y - 1970) = y by omega, show 1 + (m - 1) = m by omega] at h
  exact h

/-- The London offset is less than a day. -/
theorem londonOffsetMin_lt (t : Nat) : londonOffsetMin t < 1440 := by
  unfold londonOffsetMin
  dsimp only
  split <;> omega

/-- Rendering the runner-local (UTC) midnight of a first-of-month in the
`Europe/London` timezone yields that same civil date, zero-padded: the London
offset is at most an hour ahead of UTC, so it cannot move midnight out of the
day. -/
theorem londonDateStr_firstOfMonth (y m : Nat)
    (hy : 1970 ≤ y) (hy' : y ≤ 2400) (hm : 1 ≤ m) (hm' : m ≤ 12) :
    londonDateStr (daysFromCivil y m 1 * 1440) = pad4 y ++ "-" ++ pad2 m ++ "-01" := by
  unfold londonDateStr
  have hoff := londonOffsetMin_lt (daysFromCivil y m 1 * 1440)
  have hdiv : (daysFromCivil y m 1 * 1440 + londonOffsetMin (daysFromCivil y m 1 * 1440)) / 1440
      = daysFromCivil y m 1 := by omega
  rw [hdiv, civilFromDays_daysFromCivil_first' y m hy hy' hm hm']
  show pad4 y ++ "-" ++ pad2 m ++ "-" ++ pad2 1 = pad4 y ++ "-" ++ pad2 m ++ "-01"
  rw [String.append_assoc]
  rfl

/-- Idempotence of `Char.toLower`: lowering an upper-case basic latin letter
lands outside the upper-case range, and everything else is fixed. -/
theorem charToLower_idem (c : Char) : c.toLower.toLower = c.toLower := by
  simp only [Char.toLower]
  by_cases h : c.toNat ≥ 65 ∧ c.toNat ≤ 90
  · rw [if_pos h]
    have hv : Nat.isValidChar (c.toNat + 32) := Or.inl (by omega)
    have ht : (Char.ofNat (c.toNat + 32)).toNat = c.toNat + 32 := by
      rw [Char.ofNat, dif_pos hv]; rfl
    rw [if_neg (by rw [ht]; omega)]
  · rw [if_neg h, if_neg h]

/-- Idempotence of `jsToLower`. -/
theorem jsToLower_idem (s : String) : jsToLower (jsToLower s) = jsToLower s := by
  unfold jsToLower
  refine congrArg String.mk ?_
  show List.map Char.toLower (List.map Char.toLower s.data) = List.map Char.toLower s.data
  rw [List.map_map]
  exact List.map_congr_left fun c _ => charToLower_idem c

/-- Truthiness does not distinguish a present-but-empty value from an absent
one. -/
theorem jsTruthy_blankToNone (v : Option String) :
    jsTruthy (blankToNone v) = jsTruthy v := by
  unfold blankToNone
  split
  · rename_i h; rw [h]; rfl
  · rfl

/-- Defaulting via `jsOr` does not distinguish a present-but-empty value from an absent
one. -/
theorem jsOr_blankToNone (v : Option String) (d : String) :
    jsOr (blankToNone v) d = jsOr v d := by
  unfold blankToNone
  split
  · rename_i h; rw [h]; simp [jsOr]
  · rfl

/-- Parsing does not distinguish a present-but-empty value from an absent
one: the empty string does not parse. -/
theorem bindParse_blankToNone (v : Option String) :
    (blankToNone v >>= parseISO) = (v >>= parseISO) := by
  unfold blankToNone
  split
  · rename_i h; rw [h]; rfl
  · rfl

/-- Soundness of `strLeGo` for the core lexicographic list order: `strLeGo xs ys` is
`true` exactly when `ys` is not lexicographically below `xs`. -/
theorem strLeGo_iff (xs ys : List Char) : strLeGo xs ys = true ↔ ¬ List.lt ys xs := by
  induction xs generalizing ys with
  | nil =>
    simp only [strLeGo, true_iff]
    intro h
    nomatch h
  | cons x xs ih =>
    cases ys with
    | nil =>
      constructor
      · intro h
        simp [strLeGo] at h
      · intro h
        exact absurd (List.lt.nil x xs) h
    | cons y ys =>
      by_cases hxy : x = y
      · subst hxy
        simp only [strLeGo, eq_self_iff_true, if_true]
        rw [ih ys]
        constructor
        · intro h hlt
          cases hlt with
          | head _ _ hl => exact lt_irrefl x hl
          | tail _ _ hl => exact h hl
        · intro h hlt
          exact h (List.lt.tail (lt_irrefl x) (lt_irrefl x) hlt)
      · simp only [strLeGo, if_neg hxy, decide_eq_true_eq]
        rcases lt_trichotomy x y with hlt | heq | hgt
        · constructor
          · intro _ hl
            cases hl with
            | head _ _ h2 => exact lt_asymm hlt h2
            | tail h1 h2 _ => exact h2 hlt
          · intro _
            exact hlt
        · exact absurd heq hxy
        · constructor
          · intro h
            exact absurd h (lt_asymm hgt)
          · intro h
            exact absurd (List.lt.head ys xs hgt) h

/-- Soundness of `strLe`: it decides the lexicographic order on strings, read as their
character lists (`List.le` is the core lexicographic list order). -/
theorem strLe_iff (a b : String) : strLe a b = true ↔ List.le a.data b.data :=
  strLeGo_iff a.data b.data

/-- The pagination loop on a server that serves the page chain `pages` from
request parameter `off` returns the concatenation of the pages' record lists,
given at least `pages.length` iterations of fuel. -/
theorem fetchFrom_of_serves (srv : Server) {off : Option String} {pages : List Page}
    (h : Serves srv off pages) :
    ∀ fuel, pages.length ≤ fuel →
      fetchFrom srv fuel off = some (Except.ok ((pages.map Page.records).flatten)) := by
  induction h with
  | @last off p hsrv hoff =>
    intro fuel hf
    match fuel, hf with
    | fuel + 1, _ =>
      simp [fetchFrom, hsrv, hoff]
  | @step off p t ps hsrv hoff hrest ih =>
    intro fuel hf
    match fuel, hf with
    | fuel + 1, hf =>
      have hlen : ps.length ≤ fuel := by
        simp only [List.length_cons] at hf; omega
      simp [fetchFrom, hsrv, hoff, ih fuel hlen, Except.map]

/-! ## Claims -/

/-- Termination of the pagination loop in an error: if the server answers
successful pages up to an `n`-th request answered with HTTP status `s`, the
loop throws `Airtable API error: s` provided it has at least `n` iterations
of fuel. -/
theorem fetchFrom_of_servesErr (srv : Server) {off : Option String} {s n : Nat}
    (h : ServesErr srv off s n) :
    ∀ fuel, n ≤ fuel → fetchFrom srv fuel off = some (Except.error s) := by
  induction h with
  | @here off s hsrv =>
    intro fuel hf
    match fuel, hf with
    | fuel + 1, _ => simp [fetchFrom, hsrv]
  | @step off p t s n hsrv hoff hrest ih =>
    intro fuel hf
    match fuel, hf with
    | fuel + 1, hf =>
      have hn : n ≤ fuel := by omega
      simp [fetchFrom, hsrv, hoff, ih fuel hn, Except.map]

/-- Claim C1, counterexample to the claim as stated: at
`c1Now` = 2024-04-30T23:30Z the current month in `Europe/London` is already
May (the London civil date of `c1Now` is 2024-05-01), so the first day of the
month preceding the London-current month is 2024-04-01; but the code computes
the threshold from the runner's UTC clock, which still reads April, and
produces 2024-03-01. -/
theorem c1_counterexample :
    londonDateStr c1Now = "2024-05-01" ∧
    specPrevMonthFirstLondon c1Now = "2024-04-01" ∧
    prevMonthStart c1Now = "2024-03-01" ∧
    prevMonthStart c1Now ≠ specPrevMonthFirstLondon c1Now := by
  decide

/-- Claim C1 (amended): the date-window filter computes the threshold as the
first calendar day of the month preceding the current month of the runner's
clock (UTC on the GitHub Actions runner), formatted as zero-padded
`YYYY-MM-DD` (the rendering of that midnight in `Europe/London` cannot move
the date), and retains exactly those events whose date string is
lexicographically ≥ the threshold. -/
theorem c1_threshold_and_filter (now : Nat) (events : List OutputEvent)
    (hy : 1970 < (civilFromDays (now / 1440)).1 ∧ (civilFromDays (now / 1440)).1 ≤ 2400)
    (hm : 1 ≤ (civilFromDays (now / 1440)).2.1 ∧ (civilFromDays (now / 1440)).2.1 ≤ 12) :
    prevMonthStart now = specPrevMonthFirstUTC now ∧
    ∀ e, e ∈ recentAndFutureEvents (prevMonthStart now) events ↔
      e ∈ events ∧ List.le (prevMonthStart now).data e.date.data := by
  constructor
  · unfold prevMonthStart specPrevMonthFirstUTC prevYM
    dsimp only
    split
    · exact londonDateStr_firstOfMonth _ _ (by omega) (by omega) (by omega) (by omega)
    · exact londonDateStr_firstOfMonth _ _ (by omega) (by omega) (by omega) (by omega)
  · intro e
    simp [recentAndFutureEvents, List.mem_filter, strLe_iff]

/-- Claim C1, witness: with `now` fixed to 2024-03-10 (the spec's worked
example) the threshold is `2024-02-01`; an event dated `2024-01-31` is
excluded and one dated `2024-02-01` is included. -/
theorem c1_threshold_and_filter_witness :
    (1970 < (civilFromDays (c1ExampleNow / 1440)).1 ∧
      (civilFromDays (c1ExampleNow / 1440)).1 ≤ 2400) ∧
    (1 ≤ (civilFromDays (c1ExampleNow / 1440)).2.1 ∧
      (civilFromDays (c1ExampleNow / 1440)).2.1 ≤ 12) ∧
    (prevMonthStart c1ExampleNow = specPrevMonthFirstUTC c1ExampleNow ∧
      ∀ e, e ∈ recentAndFutureEvents (prevMonthStart c1ExampleNow)
              [mkEvent "2024-01-31", mkEvent "2024-02-01"] ↔
        e ∈ [mkEvent "2024-01-31", mkEvent "2024-02-01"] ∧
          List.le (prevMonthStart c1ExampleNow).data e.date.data) ∧
    prevMonthStart c1ExampleNow = "2024-02-01" ∧
    recentAndFutureEvents (prevMonthStart c1ExampleNow)
        [mkEvent "2024-01-31", mkEvent "2024-02-01"] = [mkEvent "2024-02-01"] :=
  ⟨by decide, by decide,
   c1_threshold_and_filter c1ExampleNow [mkEvent "2024-01-31", mkEvent "2024-02-01"]
     (by decide) (by decide),
   by decide, by decide⟩

/-- Claim C2: the code evaluated at the spec's round-trip example record.  The
start and end times are correct (`19:30` and `21:00`, London wall clock), but
the separator placed between them is `timeSeparator` — the three characters
U+00E2 U+20AC U+201C, the mojibake the source file carries at line 57 — and
not the single en dash U+2013 the claim states. -/
theorem c2_separator_mojibake :
    (transformEvent c2Record).time = "19:30" ++ timeSeparator ++ "21:00" ∧
    timeSeparator ≠ enDash ∧
    (transformEvent c2Record).time ≠ "19:30" ++ enDash ++ "21:00" ∧
    (transformEvent c2Record).date = "2024-03-15" := by
  decide

/-- Claim C3: the paginated fetcher, run against a server that serves the
page chain `pages` (each non-final page carrying the continuation token under
which the next page is served — the fetcher echoes it — and the final page
carrying none), accumulates exactly the concatenation of the pages' record
lists: every page's records in page order, within each page in server order.
It needs one loop iteration per page. -/
theorem c3_pagination (srv : Server) (pages : List Page) (fuel : Nat)
    (h : Serves srv none pages) (hfuel : pages.length ≤ fuel) :
    fetchApprovedEvents srv fuel = some (Except.ok ((pages.map Page.records).flatten)) :=
  fetchFrom_of_serves srv h fuel hfuel

/-- Claim C3, witness: a fake endpoint returning a continuation token on page
one and none on page two yields the records of both pages, in page order then
within-page order. -/
theorem c3_pagination_witness :
    Serves twoPageSrv none twoPages ∧ twoPages.length ≤ 2 ∧
    fetchApprovedEvents twoPageSrv 2 = some (Except.ok ((twoPages.map Page.records).flatten)) ∧
    (twoPages.map Page.records).flatten = [recA, recB, recC] :=
  have hs : Serves twoPageSrv none twoPages :=
    Serves.step rfl rfl (Serves.last rfl rfl)
  ⟨hs, by decide, c3_pagination twoPageSrv twoPages 2 hs (by decide), by decide⟩

/-- Claim C4: when the two credentials are truthy and the pagination loop
hits a non-2xx response with status `s`, the run is fatal: the error
propagates to the top-level handler, the process exits with status 1, the
output file is not written, and the diagnostic names the HTTP status. -/
theorem c4_http_error_fatal (apiKey baseId : Option String) (srv : Server)
    (fuel now s n : Nat)
    (hk : jsTruthy apiKey = true) (hb : jsTruthy baseId = true)
    (h : ServesErr srv none s n) (hfuel : n ≤ fuel) :
    runScript apiKey baseId srv fuel now =
      some { exitCode := 1, written := none, networkCalled := true,
             stderr := ["Export failed: Airtable API error: " ++ toString s] } := by
  have hf := fetchFrom_of_servesErr srv h fuel hfuel
  unfold runScript fetchApprovedEvents
  rw [if_neg (by simp [hk, hb]), hf]

/-- A server whose every response has HTTP status 403. -/
def errSrv : Server := fun _ => Except.error 403

/-- Claim C4, witness: a 403 response on the first page makes the run exit
with status 1 and write nothing. -/
theorem c4_http_error_fatal_witness :
    jsTruthy (some "key") = true ∧ jsTruthy (some "base") = true ∧
    ServesErr errSrv none 403 1 ∧
    runScript (some "key") (some "base") errSrv 1 0 =
      some { exitCode := 1, written := none, networkCalled := true,
             stderr := ["Export failed: Airtable API error: " ++ toString 403] } :=
  ⟨rfl, rfl, ServesErr.here rfl,
   c4_http_error_fatal (some "key") (some "base") errSrv 1 0 403 1 rfl rfl
     (ServesErr.here rfl) (Nat.le_refl 1)⟩

/-- Claim C5: when either environment value is missing or empty, the process
exits with status 1 after printing the diagnostic to the error stream, the
file is not written, and no network call is attempted — the outcome does not
depend on the server at all. -/
theorem c5_missing_config (apiKey baseId : Option String) (srv : Server) (fuel now : Nat)
    (h : jsTruthy apiKey = false ∨ jsTruthy baseId = false) :
    runScript apiKey baseId srv fuel now =
      some { exitCode := 1, written := none, networkCalled := false,
             stderr := ["Missing AIRTABLE_API_KEY or AIRTABLE_BASE_ID"] } ∧
    ∀ srv' : Server, runScript apiKey baseId srv fuel now = runScript apiKey baseId srv' fuel now := by
  have hcond : ¬ jsTruthy apiKey ∨ ¬ jsTruthy baseId := by
    rcases h with h | h <;> simp [h]
  constructor
  · unfold runScript
    rw [if_pos hcond]
  · intro srv'
    unfold runScript
    rw [if_pos hcond, if_pos hcond]

/-- Claim C5, witness: with `AIRTABLE_API_KEY` unset the run exits with
status 1, prints the diagnostic, writes nothing, and issues no request. -/
theorem c5_missing_config_witness :
    (jsTruthy (none : Option String) = false ∨ jsTruthy (some "base") = false) ∧
    runScript none (some "base") errSrv 1 0 =
      some { exitCode := 1, written := none, networkCalled := false,
             stderr := ["Missing AIRTABLE_API_KEY or AIRTABLE_BASE_ID"] } ∧
    ∀ srv' : Server, runScript none (some "base") errSrv 1 0 = runScript none (some "base") srv' 1 0 :=
  have h := c5_missing_config none (some "base") errSrv 1 0 (Or.inl rfl)
  ⟨Or.inl rfl, h.1, h.2⟩

/-- Claim C6, counterexample to the claim as stated: a record whose `Type`
field is present but empty gets type `"show"`, not the lowercasing of its
`Type` field (which would be `""`): the default applies to every falsy value,
not only to missing fields. -/
theorem c6_counterexample :
    c6Record.fields.TypeField = some "" ∧
    (transformEvent c6Record).type = "show" ∧
    (transformEvent c6Record).type ≠ jsToLower "" := by
  decide

/-- Claim C6 (amended): the transformed event's `type` equals the record's
`Type` field lowercased when that field is present and non-empty, equals
`"show"` when it is absent or empty, and is in all cases a lowercase string
(lowercasing it again changes nothing). -/
theorem c6_type_lowercase (r : AirtableRecord) :
    (∀ s, r.fields.TypeField = some s → s ≠ "" → (transformEvent r).type = jsToLower s) ∧
    ((r.fields.TypeField = none ∨ r.fields.TypeField = some "") →
      (transformEvent r).type = "show") ∧
    jsToLower (transformEvent r).type = (transformEvent r).type := by
  refine ⟨?_, ?_, ?_⟩
  · intro s hs hne
    simp [transformEvent, jsOr, hs, hne]
  · rintro (h | h) <;> simp [transformEvent, jsOr, h] <;> decide
  · exact jsToLower_idem (jsOr r.fields.TypeField "show")

/-- A record whose `Type` field is the non-empty string `"Workshop"`. -/
def c6Record2 : AirtableRecord :=
  { id := "rec6b", fields := { emptyFields with TypeField := some "Workshop" } }

/-- Claim C6, witness: a record typed `"Workshop"` is transformed to type
`"workshop"`, and that string is its own lowercasing. -/
theorem c6_type_lowercase_witness :
    (transformEvent c6Record2).type = jsToLower "Workshop" ∧
    jsToLower (transformEvent c6Record2).type = (transformEvent c6Record2).type ∧
    (transformEvent c6Record2).type = "workshop" :=
  ⟨(c6_type_lowercase c6Record2).1 "Workshop" rfl (by decide),
   (c6_type_lowercase c6Record2).2.2, by decide⟩

/-- Claim C7, counterexample to the claim as stated: a record whose
`Tickets URL` field is present but empty does not get `url` equal to that
field; the empty string is falsy, so the code falls through to `Event URL`. -/
theorem c7_counterexample :
    c7Record.fields.TicketsURL = some "" ∧
    (transformEvent c7Record).url = "https://example.org/e" ∧
    (transformEvent c7Record).url ≠ "" := by
  decide

/-- Claim C7 (amended): the transformed event's `url` is the `Tickets URL`
field when present and non-empty, else the `Event URL` field when present and
non-empty, else the empty string — in particular `""` whenever both fields
are missing or empty. -/
theorem c7_url_precedence (r : AirtableRecord) :
    (∀ s, r.fields.TicketsURL = some s → s ≠ "" → (transformEvent r).url = s) ∧
    (jsTruthy r.fields.TicketsURL = false →
      ∀ s, r.fields.EventURL = some s → s ≠ "" → (transformEvent r).url = s) ∧
    (jsTruthy r.fields.TicketsURL = false → jsTruthy r.fields.EventURL = false →
      (transformEvent r).url = "") := by
  refine ⟨?_, ?_, ?_⟩
  · intro s hs hne
    simp [transformEvent, jsOr, hs, hne]
  · intro ht s hs hne
    cases h : r.fields.TicketsURL with
    | none => simp [transformEvent, jsOr, h, hs, hne]
    | some u =>
      have hu : u = "" := by
        rw [h] at ht
        simpa [jsTruthy] using ht
      subst hu
      simp [transformEvent, jsOr, h, hs, hne]
  · intro ht he
    have hT : r.fields.TicketsURL = none ∨ r.fields.TicketsURL = some "" := by
      cases h : r.fields.TicketsURL with
      | none => exact Or.inl rfl
      | some u =>
        rw [h] at ht
        have : u = "" := by simpa [jsTruthy] using ht
        exact Or.inr (by rw [this])
    have hE : r.fields.EventURL = none ∨ r.fields.EventURL = some "" := by
      cases h : r.fields.EventURL with
      | none => exact Or.inl rfl
      | some u =>
        rw [h] at he
        have : u = "" := by simpa [jsTruthy] using he
        exact Or.inr (by rw [this])
    rcases hT with hT | hT <;> rcases hE with hE | hE <;> simp [transformEvent, jsOr, hT, hE]

/-- A record with both a non-empty `Tickets URL` and a non-empty
`Event URL`. -/
def c7Record2 : AirtableRecord :=
  { id := "rec7b",
    fields := { emptyFields with TicketsURL := some "https://tickets.example/t",
                                 EventURL := some "https://example.org/e" } }

/-- Claim C7, witness: a non-empty `Tickets URL` wins; an empty one falls
through to `Event URL`; a record with neither gets `""`. -/
theorem c7_url_precedence_witness :
    (transformEvent c7Record2).url = "https://tickets.example/t" ∧
    (transformEvent c7Record).url = "https://example.org/e" ∧
    (transformEvent c10Record).url = "" :=
  ⟨(c7_url_precedence c7Record2).1 "https://tickets.example/t" rfl (by decide),
   (c7_url_precedence c7Record).2.1 (by decide) "https://example.org/e" rfl (by decide),
   (c7_url_precedence c10Record).2.2 rfl rfl⟩

/-- Claim C8: the date-window filter returns a subsequence of its input — it
keeps the surviving events in their original relative order and performs no
re-sort — so if the input list is sorted ascending by date (as established by
the remote sort), the output is too. -/
theorem c8_filter_preserves_order (threshold : String) (events : List OutputEvent) :
    (recentAndFutureEvents threshold events).Sublist events ∧
    (events.Pairwise (fun a b => List.le a.date.data b.date.data) →
      (recentAndFutureEvents threshold events).Pairwise
        (fun a b => List.le a.date.data b.date.data)) := by
  constructor
  · exact List.filter_sublist events
  · intro h
    exact List.Pairwise.sublist (List.filter_sublist events) h

/-- A concrete date-sorted event list around the 2024-02-01 threshold. -/
def c8Events : List OutputEvent :=
  [mkEvent "2024-01-31", mkEvent "2024-02-01", mkEvent "2024-03-05"]

/-- Claim C8, witness: a concrete sorted list stays sorted after filtering,
and the filter output is a sublist of the input. -/
theorem c8_filter_preserves_order_witness :
    c8Events.Pairwise (fun a b => List.le a.date.data b.date.data) ∧
    (recentAndFutureEvents "2024-02-01" c8Events).Sublist c8Events ∧
    (recentAndFutureEvents "2024-02-01" c8Events).Pairwise
      (fun a b => List.le a.date.data b.date.data) :=
  have hp : c8Events.Pairwise (fun a b => List.le a.date.data b.date.data) := by decide
  ⟨hp, (c8_filter_preserves_order "2024-02-01" c8Events).1,
   (c8_filter_preserves_order "2024-02-01" c8Events).2 hp⟩

/-- Claim C9: the transformer treats present-but-empty field values exactly
like absent ones — replacing every empty field of a record by an absent field
does not change its transform; in particular an empty `Type` yields
`"show"`, an empty `Tickets URL` falls through to `Event URL` (and then to
`""`), and empty `Title`/`Venue` remain `""`. -/
theorem c9_blank_eq_absent (r : AirtableRecord) :
    transformEvent (normalizeBlank r) = transformEvent r ∧
    (r.fields.TypeField = some "" → (transformEvent r).type = "show") ∧
    (r.fields.TicketsURL = some "" →
      (transformEvent r).url = jsOr r.fields.EventURL "") ∧
    (r.fields.Title = some "" → (transformEvent r).title = "") ∧
    (r.fields.Venue = some "" → (transformEvent r).venue = "") := by
  refine ⟨?_, ?_, ?_, ?_, ?_⟩
  · unfold transformEvent normalizeBlank formatDate formatTime
    dsimp only
    simp only [bindParse_blankToNone, jsTruthy_blankToNone, jsOr_blankToNone]
  · intro h
    simp [transformEvent, jsOr, h]
    decide
  · intro h
    simp [transformEvent, jsOr, h]
  · intro h
    simp [transformEvent, jsOr, h]
  · intro h
    simp [transformEvent, jsOr, h]

/-- A record in which every field is present but empty. -/
def c9Record : AirtableRecord :=
  { id := "rec9",
    fields := { Start := some "", End := some "", Title := some "", Venue := some "",
                TypeField := some "", TicketsURL := some "", EventURL := some "" } }

/-- Claim C9, witness: on the all-empty-fields record, normalizing empties to
absences does not change the transform, and the documented defaults apply. -/
theorem c9_blank_eq_absent_witness :
    transformEvent (normalizeBlank c9Record) = transformEvent c9Record ∧
    (transformEvent c9Record).type = "show" ∧
    (transformEvent c9Record).url = jsOr c9Record.fields.EventURL "" ∧
    (transformEvent c9Record).title = "" ∧
    (transformEvent c9Record).venue = "" :=
  ⟨(c9_blank_eq_absent c9Record).1, (c9_blank_eq_absent c9Record).2.1 rfl,
   (c9_blank_eq_absent c9Record).2.2.1 rfl, (c9_blank_eq_absent c9Record).2.2.2.1 rfl,
   (c9_blank_eq_absent c9Record).2.2.2.2 rfl⟩

/-- Claim C10: the transformer is total even without a `Start` field — no
error is raised; the `date` field becomes the literal string
`"Invalid Date"`, and so does `time` when `End` is falsy (when `End` is
truthy, `time` starts with `"Invalid Date"` followed by the separator). -/
theorem c10_invalid_date_total (r : AirtableRecord) (h : r.fields.Start = none) :
    (transformEvent r).date = "Invalid Date" ∧
    (jsTruthy r.fields.End = false → (transformEvent r).time = "Invalid Date") ∧
    (jsTruthy r.fields.End = true →
      (transformEvent r).time = "Invalid Date" ++ timeSeparator ++
        (match r.fields.End >>= parseISO with
         | none => "Invalid Date"
         | some t => londonTimeStr t)) := by
  refine ⟨?_, ?_, ?_⟩
  · simp [transformEvent, formatDate, h]
  · intro he
    simp [transformEvent, formatTime, h, he]
  · intro he
    simp [transformEvent, formatTime, h, he]

/-- Claim C10, witness: the record with no fields at all transforms without
error to `date = "Invalid Date"` and `time = "Invalid Date"`. -/
theorem c10_invalid_date_total_witness :
    c10Record.fields.Start = none ∧
    (transformEvent c10Record).date = "Invalid Date" ∧
    (transformEvent c10Record).time = "Invalid Date" :=
  ⟨rfl, (c10_invalid_date_total c10Record rfl).1,
   (c10_invalid_date_total c10Record rfl).2.1 rfl⟩
